import Mathlib

/-!
Verification of `src/pdf_processor.py` (agent-pdf-app).

The Python program is a three-stage pipeline over one PDF document:
extraction (PyMuPDF `fitz.open` + per-page `get_text`), rewriting
(one OpenAI chat call per page), and reconstruction (a fresh document,
one new page per original page, fixed-position text plus full-page
image copies, then `save`).

Shallow embedding: external effects are parameters.
* the filesystem / `fitz.open` is a function `String → Option Document`
  (`none` models any exception while opening or reading the file);
* the OpenAI call is a function returning `Except String GPTResponse`
  (`Except.error` models any exception raised by the client);
* saving is a function `NewDocument → String → Bool` (`false` models an
  exception raised by `new_doc.save`);
* `print` logging is tracked by boolean fields of the result records.
Python functions that catch all exceptions and return normally are total
Lean functions into those records.
-/

namespace PDFApp

/-- Model of one entry of `page.get_images(full=True)`: the code only
reads component 0 of each tuple, the image xref. -/
structure ImageEntry where
  xref : Nat
  deriving DecidableEq, Repr

/-- Model of a PyMuPDF page: its rectangle width and height (rationals,
standing for the exact coordinate values), the string returned by
`page.get_text()`, and its image list. -/
structure Page where
  width : ℚ
  height : ℚ
  text : String
  images : List ImageEntry
  deriving DecidableEq, Repr

/-- Model of an open PyMuPDF document: the ordered page list, and the
xref-indexed image store backing `doc.extract_image` (`none` models the
exception raised on a bad xref). -/
structure Document where
  pages : List Page
  image_data : List (Nat × List Nat)
  deriving DecidableEq, Repr

/-- `page.get_text()`. -/
def Page.get_text (p : Page) : String := p.text

/-- `page.rect`: in PyMuPDF a page rectangle always has top-left `(0,0)`,
so it is determined by the width and height. -/
structure Rect where
  x0 : ℚ
  y0 : ℚ
  x1 : ℚ
  y1 : ℚ
  deriving DecidableEq, Repr

/-- `page.rect` of an original page. -/
def Page.rect (p : Page) : Rect := ⟨0, 0, p.width, p.height⟩

/-- `doc.extract_image(xref)["image"]`, the raw encoded bytes. -/
def Document.extract_image (doc : Document) (xref : Nat) : Option (List Nat) :=
  doc.image_data.lookup xref

/-- One choice of a chat-completion response (`response.choices[i]`);
`message_content` is `choice.message.content`. -/
structure GPTChoice where
  message_content : String
  deriving DecidableEq, Repr

/-- A chat-completion response envelope; the code reads `choices` only. -/
structure GPTResponse where
  choices : List GPTChoice
  deriving DecidableEq, Repr

/-- Result of `extract_text_from_pdf`: the returned list, plus whether
the `except` branch printed its error line. -/
structure ExtractResult where
  page_texts : List String
  error_logged : Bool
  deriving DecidableEq, Repr

/-- `extract_text_from_pdf` (lines 31-54): open the document, collect
`page.get_text()` for each page in order; on any exception print an
error and return the empty list. -/
def extract_text_from_pdf (fs : String → Option Document) (pdf_path : String) :
    ExtractResult :=
  match fs pdf_path with
  | some doc => { page_texts := doc.pages.map Page.get_text, error_logged := false }
  | none => { page_texts := [], error_logged := true }

/-- Model of Python `str.strip()`: remove whitespace characters from
both ends of the string. -/
def py_strip (s : String) : String :=
  String.mk (((s.data.dropWhile Char.isWhitespace).reverse.dropWhile
    Char.isWhitespace).reverse)

/-- `process_command_with_gpt` (lines 56-78): call the chat API, return
`response.choices[0].message.content.strip()`; on any exception
(including the `IndexError` from an empty `choices` list) print an error
and return the original text. -/
def process_command_with_gpt (gpt : String → String → Except String GPTResponse)
    (text command : String) : String :=
  match gpt text command with
  | Except.ok response =>
    match response.choices with
    | choice :: _ => py_strip choice.message_content
    | [] => text
  | Except.error _ => text

/-- One `new_page.insert_text(pos, text, fontsize=...)` call recorded on
a new page; `fontname` is `none` when the call does not override the
library's default font, as in the source. -/
structure InsertedText where
  pos : ℚ × ℚ
  fontsize : ℚ
  fontname : Option String
  text : String
  deriving DecidableEq, Repr

/-- One `new_page.insert_image(rect, stream=bytes)` call recorded on a
new page. -/
structure InsertedImage where
  rect : Rect
  bytes : List Nat
  deriving DecidableEq, Repr

/-- A page of the output document: created by
`new_doc.new_page(width=..., height=...)` and then populated by the
recorded insert calls, in order. -/
structure NewPage where
  width : ℚ
  height : ℚ
  texts : List InsertedText
  images : List InsertedImage
  deriving DecidableEq, Repr

/-- The full page rectangle of a new page (top-left `(0,0)`). -/
def NewPage.full_rect (np : NewPage) : Rect := ⟨0, 0, np.width, np.height⟩

/-- The output document assembled by the reconstruction loop. -/
structure NewDocument where
  pages : List NewPage
  deriving DecidableEq, Repr

/-- The inner image loop of `replace_text_in_pdf` (lines 121-127): for
each entry of `page.get_images(full=True)`, in order, extract the raw
bytes of `img[0]` and insert them at `page.rect`; `none` models the
exception raised by `doc.extract_image` on a bad xref, which aborts the
whole `try` block. -/
def copy_images (doc : Document) (page : Page) :
    List ImageEntry → Option (List InsertedImage)
  | [] => some []
  | img :: rest =>
    match doc.extract_image img.xref with
    | none => none
    | some image_bytes =>
      match copy_images doc page rest with
      | none => none
      | some tail => some ({ rect := page.rect, bytes := image_bytes } :: tail)

/-- One iteration of the reconstruction loop (lines 113-127): a new page
with the original page's width and height, the modified text inserted at
`(50, 50)` with `fontsize=11` and no font override, then the image
copies. -/
def build_new_page (doc : Document) (page : Page) (modified_text : String) :
    Option NewPage :=
  match copy_images doc page page.images with
  | none => none
  | some imgs =>
    some { width := page.width, height := page.height,
           texts := [{ pos := (50, 50), fontsize := 11, fontname := none,
                       text := modified_text }],
           images := imgs }

/-- The reconstruction loop over `zip(doc, modified_page_texts)`. -/
def build_pages (doc : Document) :
    List (Page × String) → Option (List NewPage)
  | [] => some []
  | (page, modified_text) :: rest =>
    match build_new_page doc page modified_text with
    | none => none
    | some np =>
      match build_pages doc rest with
      | none => none
      | some tail => some (np :: tail)

/-- Assembly of the whole output document from the original document and
the modified page texts (lines 111-128). -/
def build_new_doc (doc : Document) (modified_page_texts : List String) :
    Option NewDocument :=
  match build_pages doc (doc.pages.zip modified_page_texts) with
  | none => none
  | some ps => some { pages := ps }

/-- `os.path.join` for the two relative paths the program builds. -/
def os_path_join (a b : String) : String := a ++ "/" ++ b

/-- The ambient effects of one run: `fs` models `fitz.open` (`none` is
any exception while opening or reading), `gpt` models the chat API call
made with a page's text and the command, `save` models `new_doc.save`
(`false` is an exception during saving), and the two directories are the
processor's `input_dir` and `output_dir`. -/
structure Env where
  fs : String → Option Document
  gpt : String → String → Except String GPTResponse
  save : NewDocument → String → Bool
  input_dir : String
  output_dir : String

/-- Observable outcome of `replace_text_in_pdf`: which console messages
were printed, how many chat API calls were made, whether `save` was
reached, and the saved output file content (`none` when no valid output
file was produced). -/
structure RunOutcome where
  no_text_message : Bool
  gpt_calls : Nat
  save_attempted : Bool
  saved_file : Option NewDocument
  error_message : Bool
  success_message : Bool
  extract_error_logged : Bool
  deriving DecidableEq, Repr

/-- `replace_text_in_pdf` (lines 80-139): join the directory paths,
extract the page texts, abort with a message if the list is empty,
rewrite every page via the chat API, then inside a `try` reopen the
input, assemble the new document page by page and save it; any exception
in the `try` is caught and logged. The function is total: no exception
escapes to the caller. -/
def replace_text_in_pdf (env : Env) (input_filename output_filename command : String) :
    RunOutcome :=
  let input_path := os_path_join env.input_dir input_filename
  let output_path := os_path_join env.output_dir output_filename
  let er := extract_text_from_pdf env.fs input_path
  if er.page_texts.isEmpty then
    { no_text_message := true, gpt_calls := 0, save_attempted := false,
      saved_file := none, error_message := false, success_message := false,
      extract_error_logged := er.error_logged }
  else
    let modified_page_texts := er.page_texts.map
      (fun text => process_command_with_gpt env.gpt text command)
    match env.fs input_path with
    | none =>
      { no_text_message := false, gpt_calls := er.page_texts.length,
        save_attempted := false, saved_file := none, error_message := true,
        success_message := false, extract_error_logged := er.error_logged }
    | some doc =>
      match build_new_doc doc modified_page_texts with
      | none =>
        { no_text_message := false, gpt_calls := er.page_texts.length,
          save_attempted := false, saved_file := none, error_message := true,
          success_message := false, extract_error_logged := er.error_logged }
      | some new_doc =>
        if env.save new_doc output_path then
          { no_text_message := false, gpt_calls := er.page_texts.length,
            save_attempted := true, saved_file := some new_doc,
            error_message := false, success_message := true,
            extract_error_logged := er.error_logged }
        else
          { no_text_message := false, gpt_calls := er.page_texts.length,
            save_attempted := true, saved_file := none, error_message := true,
            success_message := false, extract_error_logged := er.error_logged }

/-- Truthiness of the Python expression `not self.api_key` where
`self.api_key = os.getenv("OPENAI_API_KEY")`: `None` (variable absent)
and the empty string are both falsy. -/
def py_falsy (s : Option String) : Bool :=
  match s with
  | none => true
  | some v => v == ""

/-- `PDFIntelligentProcessor.__init__` (lines 8-29), restricted to its
only branching logic: read `OPENAI_API_KEY` from the environment (after
`load_dotenv`), raise `ValueError` when it is falsy, otherwise keep the
key and construct the client. `getenv` models the environment after the
`.env` file is loaded. -/
def pdf_processor_init (getenv : String → Option String) : Except String String :=
  let api_key := getenv "OPENAI_API_KEY"
  if py_falsy api_key then
    Except.error "OpenAI API Key not found. Please set it in .env file."
  else
    Except.ok (api_key.getD "")

/-- The failure cases of the `try` block of `replace_text_in_pdf`
(lines 107-139), expressed over the embedding: reopening the input
fails, or assembling the new document fails (a bad image xref), or
saving fails. Each models an exception raised inside the `try`. -/
def reconstruction_fails (env : Env) (input_filename output_filename command : String) :
    Prop :=
  match env.fs (os_path_join env.input_dir input_filename) with
  | none => True
  | some doc =>
    match build_new_doc doc
        ((extract_text_from_pdf env.fs
          (os_path_join env.input_dir input_filename)).page_texts.map
          (fun text => process_command_with_gpt env.gpt text command)) with
    | none => True
    | some new_doc =>
      env.save new_doc (os_path_join env.output_dir output_filename) = false

/-- A concrete two-page document used by witnesses: page 0 has one
embedded image with xref 7, page 1 has none. -/
def sample_doc : Document :=
  { pages := [{ width := 612, height := 792, text := "Hello Startup",
                images := [{ xref := 7 }] },
              { width := 612, height := 792, text := "Startup rocks",
                images := [] }],
    image_data := [(7, [1, 2, 3])] }

/-- A concrete run environment for witnesses: the input directory holds
`sample.pdf`, the chat API always answers with padded text, saving
always succeeds. -/
def sample_env : Env :=
  { fs := fun p => if p = "input/sample.pdf" then some sample_doc else none,
    gpt := fun _ _ => Except.ok { choices := [{ message_content := " Hello Enterprise " }] },
    save := fun _ _ => true,
    input_dir := "input",
    output_dir := "output" }

/-- The sample run environment with a failing `save`. -/
def sample_env_savefail : Env :=
  { sample_env with save := fun _ _ => false }

/-- The sample run environment whose input file is a valid document
with zero pages. -/
def sample_env_zero_pages : Env :=
  { sample_env with
    fs := fun p => if p = "input/sample.pdf" then
      some { pages := [], image_data := [] } else none }

/-- The sample run environment whose input file cannot be opened. -/
def sample_env_unreadable : Env :=
  { sample_env with fs := fun _ => none }

/-- The output document the sample run saves. -/
def sample_out : NewDocument :=
  { pages := [{ width := 612, height := 792,
                texts := [{ pos := (50, 50), fontsize := 11, fontname := none,
                            text := "Hello Enterprise" }],
                images := [{ rect := ⟨0, 0, 612, 792⟩, bytes := [1, 2, 3] }] },
              { width := 612, height := 792,
                texts := [{ pos := (50, 50), fontsize := 11, fontname := none,
                            text := "Hello Enterprise" }],
                images := [] }] }

end PDFApp

namespace PDFApp

/-- Claim C3: for every readable N-page PDF, `extract_text_from_pdf`
returns a list of exactly N strings, the string at index i being the
extracted text of page i, in original page order. -/
theorem extract_maps_pages_in_order (fs : String → Option Document)
    (pdf_path : String) (doc : Document) (h : fs pdf_path = some doc) :
    (extract_text_from_pdf fs pdf_path).page_texts.length = doc.pages.length ∧
    ∀ i (hp : i < doc.pages.length)
      (ht : i < (extract_text_from_pdf fs pdf_path).page_texts.length),
      (extract_text_from_pdf fs pdf_path).page_texts.get ⟨i, ht⟩ =
        (doc.pages.get ⟨i, hp⟩).get_text := by
  have he : extract_text_from_pdf fs pdf_path =
      { page_texts := doc.pages.map Page.get_text, error_logged := false } := by
    simp [extract_text_from_pdf, h]
  rw [he]
  refine ⟨by simp, ?_⟩
  intro i hp ht
  simp

/-- Witness for C3 on a concrete two-page document. -/
theorem extract_maps_pages_in_order_witness :
    (extract_text_from_pdf
        (fun p => if p = "input/sample.pdf" then
          some ⟨[⟨612, 792, "Hello Startup", []⟩, ⟨612, 792, "Startup rocks", []⟩], []⟩
          else none)
        "input/sample.pdf").page_texts.length = 2 ∧
    (extract_text_from_pdf
        (fun p => if p = "input/sample.pdf" then
          some ⟨[⟨612, 792, "Hello Startup", []⟩, ⟨612, 792, "Startup rocks", []⟩], []⟩
          else none)
        "input/sample.pdf").page_texts.get ⟨0, by decide⟩ = "Hello Startup" := by
  have h := extract_maps_pages_in_order
    (fun p => if p = "input/sample.pdf" then
      some ⟨[⟨612, 792, "Hello Startup", []⟩, ⟨612, 792, "Startup rocks", []⟩], []⟩
      else none)
    "input/sample.pdf"
    ⟨[⟨612, 792, "Hello Startup", []⟩, ⟨612, 792, "Startup rocks", []⟩], []⟩
    (by decide)
  exact ⟨h.1.trans (by decide), (h.2 0 (by decide) (by simp [h.1])).trans (by decide)⟩

/-- Claim C4: for every path for which opening or reading fails,
`extract_text_from_pdf` returns the empty list and logs the error; the
function is total, so no exception escapes to its caller. -/
theorem extract_unreadable_empty_and_logged (fs : String → Option Document)
    (pdf_path : String) (h : fs pdf_path = none) :
    (extract_text_from_pdf fs pdf_path).page_texts = [] ∧
    (extract_text_from_pdf fs pdf_path).error_logged = true := by
  simp [extract_text_from_pdf, h]

/-- Witness for C4 on a concrete missing path. -/
theorem extract_unreadable_empty_and_logged_witness :
    (extract_text_from_pdf (fun _ => none) "input/missing.pdf").page_texts = [] ∧
    (extract_text_from_pdf (fun _ => none) "input/missing.pdf").error_logged = true :=
  extract_unreadable_empty_and_logged (fun _ => none) "input/missing.pdf" rfl

/-- Claim C2: `process_command_with_gpt` returns the first choice's
content trimmed of leading and trailing whitespace when the call
succeeds (with a first choice present), and returns the input text
unchanged when the call raises; the function is total, so no exception
escapes. -/
theorem gpt_trim_or_identity (gpt : String → String → Except String GPTResponse)
    (text command : String) :
    (∀ response choice rest,
      gpt text command = Except.ok response →
      response.choices = choice :: rest →
      process_command_with_gpt gpt text command = py_strip choice.message_content) ∧
    (∀ e, gpt text command = Except.error e →
      process_command_with_gpt gpt text command = text) := by
  constructor
  · intro response choice rest hok hch
    simp [process_command_with_gpt, hok, hch]
  · intro e herr
    simp [process_command_with_gpt, herr]

/-- Witness for C2: a succeeding call yields the trimmed first choice, a
failing call yields the original text. -/
theorem gpt_trim_or_identity_witness :
    process_command_with_gpt (fun _ _ => Except.ok ⟨[⟨"  Hello Enterprise  "⟩]⟩)
      "Hello Startup" "cmd" = "Hello Enterprise" ∧
    process_command_with_gpt (fun _ _ => Except.error "rate limit")
      "Hello Startup" "cmd" = "Hello Startup" := by
  constructor
  · have h := (gpt_trim_or_identity (fun _ _ => Except.ok ⟨[⟨"  Hello Enterprise  "⟩]⟩)
      "Hello Startup" "cmd").1 ⟨[⟨"  Hello Enterprise  "⟩]⟩ ⟨"  Hello Enterprise  "⟩ []
      rfl rfl
    exact h.trans (by decide)
  · exact (gpt_trim_or_identity (fun _ _ => Except.error "rate limit")
      "Hello Startup" "cmd").2 "rate limit" rfl

/-- Characterisation of a successful image-copy loop: one inserted image
per enumerated image, in order, each placed at the original page's
rectangle and carrying the bytes extracted for its xref. -/
theorem copy_images_spec (doc : Document) (page : Page) :
    ∀ (l : List ImageEntry) (res : List InsertedImage),
    copy_images doc page l = some res →
    res.length = l.length ∧
    ∀ j (hr : j < res.length) (hl : j < l.length),
      (res.get ⟨j, hr⟩).rect = page.rect ∧
      doc.extract_image ((l.get ⟨j, hl⟩).xref) = some (res.get ⟨j, hr⟩).bytes := by
  intro l
  induction l with
  | nil =>
    intro res h
    simp only [copy_images, Option.some.injEq] at h
    subst h
    exact ⟨rfl, fun j hr hl => absurd hr (by simp)⟩
  | cons img rest ih =>
    intro res h
    simp only [copy_images] at h
    cases hx : doc.extract_image img.xref with
    | none => rw [hx] at h; exact absurd h (by simp)
    | some image_bytes =>
      rw [hx] at h
      cases hc : copy_images doc page rest with
      | none => rw [hc] at h; exact absurd h (by simp)
      | some tail =>
        rw [hc] at h
        simp only [Option.some.injEq] at h
        subst h
        obtain ⟨hlen, helem⟩ := ih tail hc
        refine ⟨by simp [hlen], ?_⟩
        intro j hr hl
        cases j with
        | zero => exact ⟨rfl, by simpa using hx⟩
        | succ k =>
          have hr2 : k < tail.length := by simpa using hr
          have hl2 : k < rest.length := by simpa using hl
          simpa using helem k hr2 hl2

/-- Characterisation of one successful loop iteration: dimensions copied
from the original page, exactly one text run at `(50, 50)` with size 11
and the default font, and the image copies. -/
theorem build_new_page_spec (doc : Document) (page : Page) (modified_text : String)
    (np : NewPage) (h : build_new_page doc page modified_text = some np) :
    np.width = page.width ∧ np.height = page.height ∧
    np.texts = [{ pos := (50, 50), fontsize := 11, fontname := none,
                  text := modified_text }] ∧
    copy_images doc page page.images = some np.images := by
  simp only [build_new_page] at h
  cases hc : copy_images doc page page.images with
  | none => rw [hc] at h; exact absurd h (by simp)
  | some imgs =>
    rw [hc] at h
    simp only [Option.some.injEq] at h
    subst h
    exact ⟨rfl, rfl, rfl, rfl⟩

/-- Characterisation of a successful reconstruction loop over the zipped
page/text pairs. -/
theorem build_pages_spec (doc : Document) :
    ∀ (pts : List (Page × String)) (nps : List NewPage),
    build_pages doc pts = some nps →
    nps.length = pts.length ∧
    ∀ i (hn : i < nps.length) (hp : i < pts.length),
      build_new_page doc (pts.get ⟨i, hp⟩).1 (pts.get ⟨i, hp⟩).2 =
        some (nps.get ⟨i, hn⟩) := by
  intro pts
  induction pts with
  | nil =>
    intro nps h
    simp only [build_pages, Option.some.injEq] at h
    subst h
    exact ⟨rfl, fun i hn hp => absurd hn (by simp)⟩
  | cons pt rest ih =>
    intro nps h
    obtain ⟨page, modified_text⟩ := pt
    simp only [build_pages] at h
    cases hb : build_new_page doc page modified_text with
    | none => rw [hb] at h; exact absurd h (by simp)
    | some np =>
      rw [hb] at h
      cases hr : build_pages doc rest with
      | none => rw [hr] at h; exact absurd h (by simp)
      | some tail =>
        rw [hr] at h
        simp only [Option.some.injEq] at h
        subst h
        obtain ⟨hlen, helem⟩ := ih tail hr
        refine ⟨by simp [hlen], ?_⟩
        intro i hn hp
        cases i with
        | zero => simpa using hb
        | succ k =>
          have hn2 : k < tail.length := by simpa using hn
          have hp2 : k < rest.length := by simpa using hp
          simpa using helem k hn2 hp2

/-- A successful assembly is exactly a successful loop. -/
theorem build_new_doc_spec (doc : Document) (modified_page_texts : List String)
    (nd : NewDocument) (h : build_new_doc doc modified_page_texts = some nd) :
    build_pages doc (doc.pages.zip modified_page_texts) = some nd.pages := by
  simp only [build_new_doc] at h
  cases hb : build_pages doc (doc.pages.zip modified_page_texts) with
  | none => rw [hb] at h; exact absurd h (by simp)
  | some ps =>
    rw [hb] at h
    simp only [Option.some.injEq] at h
    subst h
    rfl

/-- Characterisation of a run that produced an output file: the input
opened to some document with at least one page, every page text was
rewritten, and the assembled document is the saved one. -/
theorem replace_success_spec (env : Env) (input_filename output_filename command : String)
    (nd : NewDocument)
    (h : (replace_text_in_pdf env input_filename output_filename command).saved_file =
      some nd) :
    ∃ doc, env.fs (os_path_join env.input_dir input_filename) = some doc ∧
      doc.pages ≠ [] ∧
      build_new_doc doc ((doc.pages.map Page.get_text).map
        (fun text => process_command_with_gpt env.gpt text command)) = some nd := by
  cases hfs : env.fs (os_path_join env.input_dir input_filename) with
  | none =>
    exfalso
    simp [replace_text_in_pdf, extract_text_from_pdf, hfs] at h
  | some doc =>
    refine ⟨doc, rfl, ?_⟩
    by_cases hp : doc.pages = []
    · exfalso
      simp [replace_text_in_pdf, extract_text_from_pdf, hfs, hp] at h
    · refine ⟨hp, ?_⟩
      simp only [replace_text_in_pdf, extract_text_from_pdf, hfs] at h
      rw [if_neg (by simp [hp])] at h
      split at h
      next heq => simp at h
      next new_doc heq =>
        have hnd : new_doc = nd := by
          by_cases hs : env.save new_doc
              (os_path_join env.output_dir output_filename) = true
          · rw [if_pos hs] at h
            simpa using h
          · rw [if_neg hs] at h
            simp at h
        subst hnd
        simp only [List.map_map] at heq ⊢
        exact heq

/-- Claim C1: for every run in which extraction succeeds and
reconstruction completes (an output file is saved), the output page
count equals the input page count, and every output page's width and
height equal the corresponding original page's width and height. -/
theorem output_preserves_page_count_and_dims
    (env : Env) (input_filename output_filename command : String)
    (doc : Document) (nd : NewDocument)
    (hfs : env.fs (os_path_join env.input_dir input_filename) = some doc)
    (hsaved : (replace_text_in_pdf env input_filename output_filename
      command).saved_file = some nd) :
    nd.pages.length = doc.pages.length ∧
    ∀ i (ho : i < nd.pages.length) (hp : i < doc.pages.length),
      (nd.pages.get ⟨i, ho⟩).width = (doc.pages.get ⟨i, hp⟩).width ∧
      (nd.pages.get ⟨i, ho⟩).height = (doc.pages.get ⟨i, hp⟩).height := by
  obtain ⟨doc2, hfs2, hne, hbuild⟩ := replace_success_spec env input_filename
    output_filename command nd hsaved
  rw [hfs] at hfs2
  injection hfs2 with hdoc
  subst hdoc
  have hzip := build_new_doc_spec _ _ _ hbuild
  obtain ⟨hlen, helem⟩ := build_pages_spec _ _ _ hzip
  have hzlen : (doc.pages.zip ((doc.pages.map Page.get_text).map
      (fun text => process_command_with_gpt env.gpt text command))).length =
      doc.pages.length := by
    simp
  refine ⟨hlen.trans hzlen, ?_⟩
  intro i ho hp
  have hpz : i < (doc.pages.zip ((doc.pages.map Page.get_text).map
      (fun text => process_command_with_gpt env.gpt text command))).length := by
    simpa using hp
  have hbp := helem i ho hpz
  have hfst : ((doc.pages.zip ((doc.pages.map Page.get_text).map
      (fun text => process_command_with_gpt env.gpt text command))).get
      ⟨i, hpz⟩).1 = doc.pages.get ⟨i, hp⟩ := by
    simp [List.get_zip]
  rw [hfst] at hbp
  obtain ⟨hw, hh, -, -⟩ := build_new_page_spec _ _ _ _ hbp
  exact ⟨hw, hh⟩

/-- Witness for C1 on the concrete sample run. -/
theorem output_preserves_page_count_and_dims_witness :
    (replace_text_in_pdf sample_env "sample.pdf" "out.pdf" "cmd").saved_file =
      some sample_out ∧
    sample_out.pages.length = sample_doc.pages.length ∧
    (sample_out.pages.get ⟨0, by decide⟩).width =
      (sample_doc.pages.get ⟨0, by decide⟩).width := by
  have hsaved : (replace_text_in_pdf sample_env "sample.pdf" "out.pdf"
      "cmd").saved_file = some sample_out := by decide
  have h := output_preserves_page_count_and_dims sample_env "sample.pdf" "out.pdf"
    "cmd" sample_doc sample_out (by decide) hsaved
  exact ⟨hsaved, h.1, (h.2 0 (by decide) (by decide)).1⟩

/-- Claim C6: during reconstruction, every image enumerated on an
original page is inserted into the corresponding new page with its raw
extracted bytes and a placement rectangle equal to the full new-page
rectangle; with several images, each is placed full-page, in enumeration
order. -/
theorem images_inserted_full_page (doc : Document) (page : Page)
    (modified_text : String) (np : NewPage)
    (h : build_new_page doc page modified_text = some np) :
    np.images.length = page.images.length ∧
    ∀ j (hn : j < np.images.length) (hp : j < page.images.length),
      (np.images.get ⟨j, hn⟩).rect = np.full_rect ∧
      doc.extract_image ((page.images.get ⟨j, hp⟩).xref) =
        some ((np.images.get ⟨j, hn⟩).bytes) := by
  obtain ⟨hw, hh, -, hci⟩ := build_new_page_spec doc page modified_text np h
  obtain ⟨hlen, helem⟩ := copy_images_spec doc page page.images np.images hci
  refine ⟨hlen, ?_⟩
  intro j hn hp
  obtain ⟨hr, hb⟩ := helem j hn hp
  refine ⟨?_, hb⟩
  rw [hr]
  simp [Page.rect, NewPage.full_rect, hw, hh]

/-- Witness for C6 on a page with two images. -/
theorem images_inserted_full_page_witness :
    build_new_page
      { pages := [], image_data := [(1, [9]), (2, [8])] }
      { width := 100, height := 200, text := "t", images := [⟨1⟩, ⟨2⟩] }
      "body" =
      some { width := 100, height := 200,
             texts := [{ pos := (50, 50), fontsize := 11, fontname := none,
                         text := "body" }],
             images := [{ rect := ⟨0, 0, 100, 200⟩, bytes := [9] },
                        { rect := ⟨0, 0, 100, 200⟩, bytes := [8] }] } ∧
    ({ width := 100, height := 200,
       texts := [{ pos := (50, 50), fontsize := 11, fontname := none,
                   text := "body" }],
       images := [{ rect := ⟨0, 0, 100, 200⟩, bytes := [9] },
                  { rect := ⟨0, 0, 100, 200⟩, bytes := [8] }] } : NewPage).images.length
      = 2 := by
  have hb : build_new_page
      { pages := [], image_data := [(1, [9]), (2, [8])] }
      { width := 100, height := 200, text := "t", images := [⟨1⟩, ⟨2⟩] }
      "body" =
      some { width := 100, height := 200,
             texts := [{ pos := (50, 50), fontsize := 11, fontname := none,
                         text := "body" }],
             images := [{ rect := ⟨0, 0, 100, 200⟩, bytes := [9] },
                        { rect := ⟨0, 0, 100, 200⟩, bytes := [8] }] } := by decide
  have h := images_inserted_full_page _ _ _ _ hb
  exact ⟨hb, h.1.trans (by decide)⟩

/-- Claim C7: during reconstruction, each output page's text content is
exactly one run holding that page's rewritten text, starting at offset
`(50, 50)` from the page's top-left origin, at font size 11, with no
font override (the library default font). -/
theorem text_inserted_at_fixed_offset
    (env : Env) (input_filename output_filename command : String)
    (doc : Document) (nd : NewDocument)
    (hfs : env.fs (os_path_join env.input_dir input_filename) = some doc)
    (hsaved : (replace_text_in_pdf env input_filename output_filename
      command).saved_file = some nd) :
    ∀ i (ho : i < nd.pages.length) (hp : i < doc.pages.length),
      (nd.pages.get ⟨i, ho⟩).texts =
        [{ pos := (50, 50), fontsize := 11, fontname := none,
           text := process_command_with_gpt env.gpt
             ((doc.pages.get ⟨i, hp⟩).get_text) command }] := by
  obtain ⟨doc2, hfs2, hne, hbuild⟩ := replace_success_spec env input_filename
    output_filename command nd hsaved
  rw [hfs] at hfs2
  injection hfs2 with hdoc
  subst hdoc
  have hzip := build_new_doc_spec _ _ _ hbuild
  obtain ⟨hlen, helem⟩ := build_pages_spec _ _ _ hzip
  intro i ho hp
  have hpz : i < (doc.pages.zip ((doc.pages.map Page.get_text).map
      (fun text => process_command_with_gpt env.gpt text command))).length := by
    simpa using hp
  have hbp := helem i ho hpz
  have hfst : ((doc.pages.zip ((doc.pages.map Page.get_text).map
      (fun text => process_command_with_gpt env.gpt text command))).get
      ⟨i, hpz⟩).1 = doc.pages.get ⟨i, hp⟩ := by
    simp [List.get_zip]
  have hsnd : ((doc.pages.zip ((doc.pages.map Page.get_text).map
      (fun text => process_command_with_gpt env.gpt text command))).get
      ⟨i, hpz⟩).2 = process_command_with_gpt env.gpt
        ((doc.pages.get ⟨i, hp⟩).get_text) command := by
    simp [List.get_zip]
  rw [hfst, hsnd] at hbp
  exact (build_new_page_spec _ _ _ _ hbp).2.2.1

/-- The outcome of the early-return branch of `replace_text_in_pdf`
taken when the extracted page-text list is empty. -/
theorem replace_empty_outcome
    (env : Env) (input_filename output_filename command : String)
    (h : (extract_text_from_pdf env.fs
      (os_path_join env.input_dir input_filename)).page_texts = []) :
    replace_text_in_pdf env input_filename output_filename command =
      { no_text_message := true, gpt_calls := 0, save_attempted := false,
        saved_file := none, error_message := false, success_message := false,
        extract_error_logged := (extract_text_from_pdf env.fs
          (os_path_join env.input_dir input_filename)).error_logged } := by
  simp only [replace_text_in_pdf]
  rw [if_pos (by simp [h])]

/-- Claim C5: whenever extraction yields an empty sequence,
`replace_text_in_pdf` prints its abort message and returns before any
rewrite call and before any save, so no output file is produced. -/
theorem empty_extraction_aborts_early
    (env : Env) (input_filename output_filename command : String)
    (h : (extract_text_from_pdf env.fs
      (os_path_join env.input_dir input_filename)).page_texts = []) :
    (replace_text_in_pdf env input_filename output_filename
      command).no_text_message = true ∧
    (replace_text_in_pdf env input_filename output_filename command).gpt_calls = 0 ∧
    (replace_text_in_pdf env input_filename output_filename
      command).save_attempted = false ∧
    (replace_text_in_pdf env input_filename output_filename
      command).saved_file = none := by
  rw [replace_empty_outcome env input_filename output_filename command h]
  exact ⟨rfl, rfl, rfl, rfl⟩

/-- Witness for C5 on a concrete unreadable input. -/
theorem empty_extraction_aborts_early_witness :
    (replace_text_in_pdf
      ⟨fun _ => none, fun _ _ => Except.error "e", fun _ _ => true,
        "input", "output"⟩
      "missing.pdf" "out.pdf" "cmd").no_text_message = true ∧
    (replace_text_in_pdf
      ⟨fun _ => none, fun _ _ => Except.error "e", fun _ _ => true,
        "input", "output"⟩
      "missing.pdf" "out.pdf" "cmd").gpt_calls = 0 ∧
    (replace_text_in_pdf
      ⟨fun _ => none, fun _ _ => Except.error "e", fun _ _ => true,
        "input", "output"⟩
      "missing.pdf" "out.pdf" "cmd").save_attempted = false ∧
    (replace_text_in_pdf
      ⟨fun _ => none, fun _ _ => Except.error "e", fun _ _ => true,
        "input", "output"⟩
      "missing.pdf" "out.pdf" "cmd").saved_file = none :=
  empty_extraction_aborts_early
    ⟨fun _ => none, fun _ _ => Except.error "e", fun _ _ => true,
      "input", "output"⟩
    "missing.pdf" "out.pdf" "cmd" (by decide)

/-- Claim C8: whenever an exception arises while assembling or saving
the output document, `replace_text_in_pdf` logs an error and returns
normally (it is a total function), printing no success message and
recording no valid saved file. -/
theorem reconstruction_errors_caught
    (env : Env) (input_filename output_filename command : String)
    (hne : (extract_text_from_pdf env.fs
      (os_path_join env.input_dir input_filename)).page_texts ≠ [])
    (hfail : reconstruction_fails env input_filename output_filename command) :
    (replace_text_in_pdf env input_filename output_filename
      command).error_message = true ∧
    (replace_text_in_pdf env input_filename output_filename
      command).success_message = false ∧
    (replace_text_in_pdf env input_filename output_filename
      command).saved_file = none := by
  cases hfs : env.fs (os_path_join env.input_dir input_filename) with
  | none => exact absurd (by simp [extract_text_from_pdf, hfs]) hne
  | some doc =>
    have hp : doc.pages ≠ [] := by
      intro hp0
      exact hne (by simp [extract_text_from_pdf, hfs, hp0])
    simp only [reconstruction_fails, extract_text_from_pdf, hfs] at hfail
    refine ⟨?_, ?_, ?_⟩ <;>
    · simp only [replace_text_in_pdf, extract_text_from_pdf, hfs]
      rw [if_neg (by simp [hp])]
      split
      next heq => rfl
      next new_doc heq =>
        simp only [heq] at hfail
        rw [if_neg (by simp [hfail])]

/-- Witness for C8 on a concrete run whose save fails. -/
theorem reconstruction_errors_caught_witness :
    (replace_text_in_pdf sample_env_savefail "sample.pdf" "out.pdf"
      "cmd").error_message = true ∧
    (replace_text_in_pdf sample_env_savefail "sample.pdf" "out.pdf"
      "cmd").success_message = false ∧
    (replace_text_in_pdf sample_env_savefail "sample.pdf" "out.pdf"
      "cmd").saved_file = none :=
  reconstruction_errors_caught sample_env_savefail "sample.pdf" "out.pdf" "cmd"
    (by decide) (by exact rfl)

/-- Witness for C7 on the concrete sample run. -/
theorem text_inserted_at_fixed_offset_witness :
    (sample_out.pages.get ⟨0, by decide⟩).texts =
      [{ pos := (50, 50), fontsize := 11, fontname := none,
         text := process_command_with_gpt sample_env.gpt
           ((sample_doc.pages.get ⟨0, by decide⟩).get_text) "cmd" }] := by
  have hsaved : (replace_text_in_pdf sample_env "sample.pdf" "out.pdf"
      "cmd").saved_file = some sample_out := by decide
  exact text_inserted_at_fixed_offset sample_env "sample.pdf" "out.pdf" "cmd"
    sample_doc sample_out (by decide) hsaved 0 (by decide) (by decide)

/-- Counterexample to claim C9 as stated: an environment in which
`OPENAI_API_KEY` is present but set to the empty string. The key is
present, yet construction raises, because the source tests Python
truthiness (`if not self.api_key`) rather than presence. -/
theorem api_key_present_empty_still_raises :
    ((fun k => if k = "OPENAI_API_KEY" then some "" else none)
      "OPENAI_API_KEY").isSome = true ∧
    pdf_processor_init (fun k => if k = "OPENAI_API_KEY" then some "" else none) =
      Except.error "OpenAI API Key not found. Please set it in .env file." :=
  ⟨by decide, rfl⟩

/-- Claim C9 (amended): construction raises exactly when the variable is
absent or set to the empty string; when it is present with a non-empty
value, construction completes without raising for that reason, keeping
the key. -/
theorem init_raises_iff_key_absent_or_empty (getenv : String → Option String) :
    (getenv "OPENAI_API_KEY" = none →
      pdf_processor_init getenv =
        Except.error "OpenAI API Key not found. Please set it in .env file.") ∧
    (getenv "OPENAI_API_KEY" = some "" →
      pdf_processor_init getenv =
        Except.error "OpenAI API Key not found. Please set it in .env file.") ∧
    (∀ k, getenv "OPENAI_API_KEY" = some k → k ≠ "" →
      pdf_processor_init getenv = Except.ok k) := by
  refine ⟨?_, ?_, ?_⟩
  · intro h
    simp [pdf_processor_init, py_falsy, h]
  · intro h
    simp [pdf_processor_init, py_falsy, h]
  · intro k h hk
    simp [pdf_processor_init, py_falsy, h, hk]

/-- Witness for the amended C9: an absent key raises, a set non-empty
key is kept. -/
theorem init_raises_iff_key_absent_or_empty_witness :
    pdf_processor_init (fun _ => none) =
      Except.error "OpenAI API Key not found. Please set it in .env file." ∧
    pdf_processor_init
        (fun k => if k = "OPENAI_API_KEY" then some "sk-test" else none) =
      Except.ok "sk-test" :=
  ⟨(init_raises_iff_key_absent_or_empty (fun _ => none)).1 rfl,
   (init_raises_iff_key_absent_or_empty
      (fun k => if k = "OPENAI_API_KEY" then some "sk-test" else none)).2.2
      "sk-test" (by decide) (by decide)⟩

/-- Claim C10: a valid zero-page document extracts to the empty list,
after which `replace_text_in_pdf` takes the same abort path as for an
unreadable input: same abort message, zero rewrite calls, no save
attempt, no output file — the two runs agree on every such observable of
the public interface. -/
theorem zero_page_doc_same_abort_path
    (env envU : Env) (input_filename output_filename command : String)
    (doc : Document)
    (hE : env.fs (os_path_join env.input_dir input_filename) = some doc)
    (hz : doc.pages = [])
    (hU : envU.fs (os_path_join envU.input_dir input_filename) = none) :
    (extract_text_from_pdf env.fs
      (os_path_join env.input_dir input_filename)).page_texts = [] ∧
    (extract_text_from_pdf env.fs
      (os_path_join env.input_dir input_filename)).page_texts =
      (extract_text_from_pdf envU.fs
        (os_path_join envU.input_dir input_filename)).page_texts ∧
    (replace_text_in_pdf env input_filename output_filename
      command).no_text_message = true ∧
    (replace_text_in_pdf env input_filename output_filename command).gpt_calls = 0 ∧
    (replace_text_in_pdf env input_filename output_filename
      command).save_attempted = false ∧
    (replace_text_in_pdf env input_filename output_filename
      command).saved_file = none ∧
    (replace_text_in_pdf env input_filename output_filename
      command).no_text_message =
      (replace_text_in_pdf envU input_filename output_filename
        command).no_text_message ∧
    (replace_text_in_pdf env input_filename output_filename command).gpt_calls =
      (replace_text_in_pdf envU input_filename output_filename command).gpt_calls ∧
    (replace_text_in_pdf env input_filename output_filename command).saved_file =
      (replace_text_in_pdf envU input_filename output_filename
        command).saved_file := by
  have hptE : (extract_text_from_pdf env.fs
      (os_path_join env.input_dir input_filename)).page_texts = [] := by
    simp [extract_text_from_pdf, hE, hz]
  have hptU : (extract_text_from_pdf envU.fs
      (os_path_join envU.input_dir input_filename)).page_texts = [] := by
    simp [extract_text_from_pdf, hU]
  have hrE := replace_empty_outcome env input_filename output_filename command hptE
  have hrU := replace_empty_outcome envU input_filename output_filename command hptU
  exact ⟨hptE, hptE.trans hptU.symm,
    by rw [hrE], by rw [hrE], by rw [hrE], by rw [hrE],
    by rw [hrE, hrU], by rw [hrE, hrU], by rw [hrE, hrU]⟩

/-- Witness for C10 on concrete zero-page and unreadable environments. -/
theorem zero_page_doc_same_abort_path_witness :
    (extract_text_from_pdf sample_env_zero_pages.fs
      (os_path_join sample_env_zero_pages.input_dir "sample.pdf")).page_texts = [] ∧
    (extract_text_from_pdf sample_env_zero_pages.fs
      (os_path_join sample_env_zero_pages.input_dir "sample.pdf")).page_texts =
      (extract_text_from_pdf sample_env_unreadable.fs
        (os_path_join sample_env_unreadable.input_dir "sample.pdf")).page_texts ∧
    (replace_text_in_pdf sample_env_zero_pages "sample.pdf" "out.pdf"
      "cmd").no_text_message = true ∧
    (replace_text_in_pdf sample_env_zero_pages "sample.pdf" "out.pdf"
      "cmd").gpt_calls = 0 ∧
    (replace_text_in_pdf sample_env_zero_pages "sample.pdf" "out.pdf"
      "cmd").save_attempted = false ∧
    (replace_text_in_pdf sample_env_zero_pages "sample.pdf" "out.pdf"
      "cmd").saved_file = none ∧
    (replace_text_in_pdf sample_env_zero_pages "sample.pdf" "out.pdf"
      "cmd").no_text_message =
      (replace_text_in_pdf sample_env_unreadable "sample.pdf" "out.pdf"
        "cmd").no_text_message ∧
    (replace_text_in_pdf sample_env_zero_pages "sample.pdf" "out.pdf"
      "cmd").gpt_calls =
      (replace_text_in_pdf sample_env_unreadable "sample.pdf" "out.pdf"
        "cmd").gpt_calls ∧
    (replace_text_in_pdf sample_env_zero_pages "sample.pdf" "out.pdf"
      "cmd").saved_file =
      (replace_text_in_pdf sample_env_unreadable "sample.pdf" "out.pdf"
        "cmd").saved_file :=
  zero_page_doc_same_abort_path sample_env_zero_pages sample_env_unreadable
    "sample.pdf" "out.pdf" "cmd" { pages := [], image_data := [] }
    (by decide) rfl rfl

end PDFApp
